import Mathlib

/-!
Verification of the job-orchestration subsystem of the designx backend
(src/backend/sweagent_service.py): job registry, launcher, process runner,
status publisher and cancellation controller.

The runner thread and the cancellation controller are modelled as a
transition system on a per-job state: each registry-mutating block of the
Python code is one atomic operation `Op`, and an interleaving of runner
operations with cancellations is a list of operations.  The runner's
program order is enforced by a `Phase` component.  The filesystem and the
settings object are a parameter `Env`.
-/

set_option maxRecDepth 100000

/-- Job lifecycle status, mirroring the `JobStatus` enum (lines 21-25). -/
inductive JobStatus where
  | pending
  | running
  | completed
  | failed
deriving DecidableEq, Repr

/-- Terminal statuses are completed and failed. -/
def JobStatus.isTerminal : JobStatus → Bool
  | .completed => true
  | .failed => true
  | _ => false

/-- The result dict built at line 259: `{"success": True, "return_code": return_code}`. -/
structure JobResult where
  success : Bool
  returnCode : Int
deriving DecidableEq, Repr

/-- The mutable job record, mirroring the `SWEAgentJob` pydantic model (lines 27-38).
Timestamps are abstracted to naturals. -/
structure Job where
  id : String
  repoUrl : String
  issueUrl : String
  status : JobStatus
  createdAt : Nat
  startedAt : Option Nat := none
  completedAt : Option Nat := none
  pid : Option Nat := none
  errorMessage : Option String := none
  logs : List String := []
  result : Option JobResult := none
deriving DecidableEq, Repr

/-- Environment parameters of a run: whether the OpenAI and Modal settings are
truthy (lines 171, 177), the directory of the service file (line 191), and the
set of filesystem paths that exist (`os.path.exists`), as a list. -/
structure Env where
  hasOpenAI : Bool
  hasModal : Bool
  dir : String
  exPaths : List String
deriving DecidableEq, Repr

/-- Program counter of the runner thread for one job. -/
inductive Phase where
  | notStarted
  | started
  | resolved
  | launched
  | finished
deriving DecidableEq, Repr

/-- Per-job system state: the registry record plus the runner phase. -/
structure SysState where
  job : Job
  phase : Phase
deriving DecidableEq, Repr

/-- Python truthiness of an optional pid (`if job.pid:` at line 145). -/
def pyTruthy : Option Nat → Bool
  | none => false
  | some p => p != 0

/-- Log line appended at line 164. -/
def startLog : String := "🚀 Starting SWE-agent..."

/-- Log line appended at line 173 or 175 depending on the OpenAI key. -/
def openaiLog (has : Bool) : String :=
  if has then "🔑 OpenAI API key configured" else "⚠️ No OpenAI API key found"

/-- Log line appended at line 179 or 181 depending on the Modal credentials. -/
def modalLog (has : Bool) : String :=
  if has then "🔑 Modal credentials configured" else "⚠️ No Modal credentials found"

/-- Log line appended at line 203. -/
def pathLog (p : String) : String := "📂 Using SWE-agent path: " ++ p

/-- The joined command line of lines 206-216. -/
def cmdLog (repo issue : String) : String :=
  "🤖 Command: sweagent run --agent.model.name=gpt-4.1 --config config/default.yaml" ++
    " --agent.model.per_instance_cost_limit=1.00 --env.repo.github_url=" ++ repo ++
    " --problem_statement.github_url=" ++ issue ++ " --env.deployment.type=modal"

/-- Log line appended at line 231. -/
def pidLog (p : Nat) : String := "🔄 Process started with PID: " ++ toString p

/-- Log line appended at line 258. -/
def successLog : String := "✅ SWE-agent completed successfully"

/-- Error message set at line 263. -/
def exitFailMsg (code : Int) : String := "Process failed with exit code " ++ toString code

/-- Log line appended at line 264. -/
def exitFailLog (code : Int) : String :=
  "❌ SWE-agent failed (exit code: " ++ toString code ++ ")"

/-- Log line appended at line 271 by the top-level exception handler. -/
def errLog (msg : String) : String := "❌ Error: " ++ msg

/-- Log line appended at line 147 by the cancellation controller. -/
def cancelLog : String := "🛑 Job cancelled by user"

/-- Error message set at line 151 by the cancellation controller. -/
def cancelMsg : String := "Job cancelled by user"

/-- Python str.strip whitespace set (the common cases: space, tab, newline,
carriage return). -/
def pyWhitespace (c : Char) : Bool :=
  c = ' ' || c = '\t' || c = '\n' || c = '\r'

/-- Python str.strip (line 242): drop whitespace from both ends. -/
def pyStrip (s : String) : String :=
  String.mk (((s.data.dropWhile pyWhitespace).reverse.dropWhile pyWhitespace).reverse)

/-- Append one stream line to the logs and trim to the most recent 100
(lines 245-247: append, then `logs = logs[-100:]` when the length exceeds 100). -/
def appendCapped (logs : List String) (entry : String) : List String :=
  let logs2 := logs ++ [entry]
  if 100 < logs2.length then logs2.drop (logs2.length - 100) else logs2

/-- The fixed ordered candidate working-directory list (lines 187-192). -/
def possiblePaths (env : Env) : List String :=
  ["/app/SWE-agent", "SWE-agent", "backend/SWE-agent", env.dir ++ "/SWE-agent"]

/-- First existing candidate path wins (loop at lines 195-198). -/
def findPath (env : Env) : Option String :=
  (possiblePaths env).find? (fun p => env.exPaths.contains p)

/-- The exception message of line 201 (list rendering of the paths elided to a
comma-separated join). -/
def notFoundMsg (env : Env) : String :=
  "SWE-agent directory not found. Tried: " ++ String.intercalate ", " (possiblePaths env)

/-- The fresh Pending record inserted by create_job (lines 74-80). -/
def initJob (jid repo issue : String) (t : Nat) : Job :=
  { id := jid, repoUrl := repo, issueUrl := issue, status := .pending, createdAt := t }

/-- Initial per-job system state right after creation. -/
def initState (jid repo issue : String) (t : Nat) : SysState :=
  { job := initJob jid repo issue t, phase := .notStarted }

/-- Cancellation of one job record (cancel_job body, lines 139-156): reject with
400 when the status is not pending or running; otherwise, when the pid is truthy,
send SIGTERM (when the kill raises, reject with 500 and change nothing) and
append the cancellation log line; then set status, completedAt and errorMessage.
The error value is the HTTP status code of the raised HTTPException. -/
def cancelJobRecord (j : Job) (t : Nat) (killRaises : Bool) : Except Nat Job :=
  if j.status = .pending ∨ j.status = .running then
    if pyTruthy j.pid then
      if killRaises then .error 500
      else .ok { j with
        logs := j.logs ++ [cancelLog]
        status := .failed
        completedAt := some t
        errorMessage := some cancelMsg }
    else .ok { j with
        status := .failed
        completedAt := some t
        errorMessage := some cancelMsg }
  else .error 400

/-- One atomic registry-mutating operation on a job.  Runner operations carry
the data the real step reads from the outside world (time, pid, stream line,
exit code); cancel carries whether os.kill raises. -/
inductive Op where
  | runnerStart (t : Nat)
  | resolve (t : Nat)
  | launch (p : Nat)
  | streamLine (line : String)
  | exitDone (t : Nat) (code : Int)
  | ioFail (t : Nat) (msg : String)
  | cancel (t : Nat) (killRaises : Bool)
deriving DecidableEq, Repr

/-- Small-step semantics.  `none` means the operation cannot fire there (runner
program order violated, or the cancellation raised an HTTPException and left the
record unchanged). -/
def step (env : Env) (s : SysState) (op : Op) : Option SysState :=
  match op with
  | .runnerStart t =>
    if s.phase = .notStarted then
      some { phase := .started
             job := { s.job with
               status := .running
               startedAt := some t
               logs := s.job.logs ++
                 [startLog, openaiLog env.hasOpenAI, modalLog env.hasModal] } }
    else none
  | .resolve t =>
    if s.phase = .started then
      match findPath env with
      | some p =>
        some { phase := .resolved
               job := { s.job with
                 logs := s.job.logs ++
                   [pathLog p, cmdLog s.job.repoUrl s.job.issueUrl] } }
      | none =>
        some { phase := .finished
               job := { s.job with
                 status := .failed
                 completedAt := some t
                 errorMessage := some (notFoundMsg env)
                 logs := s.job.logs ++ [errLog (notFoundMsg env)] } }
    else none
  | .launch p =>
    if s.phase = .resolved then
      some { phase := .launched
             job := { s.job with
               pid := some p
               logs := s.job.logs ++ [pidLog p] } }
    else none
  | .streamLine line =>
    if s.phase = .launched then
      let l := pyStrip line
      if l = "" then some s
      else some { s with job := { s.job with
                    logs := appendCapped s.job.logs ("🤖 " ++ l) } }
    else none
  | .exitDone t code =>
    if s.phase = .launched then
      if code = 0 then
        some { phase := .finished
               job := { s.job with
                 completedAt := some t
                 status := .completed
                 logs := s.job.logs ++ [successLog]
                 result := some { success := true, returnCode := code } } }
      else
        some { phase := .finished
               job := { s.job with
                 completedAt := some t
                 status := .failed
                 errorMessage := some (exitFailMsg code)
                 logs := s.job.logs ++ [exitFailLog code] } }
    else none
  | .ioFail t msg =>
    if s.phase = .started ∨ s.phase = .resolved ∨ s.phase = .launched then
      some { phase := .finished
             job := { s.job with
               status := .failed
               completedAt := some t
               errorMessage := some msg
               logs := s.job.logs ++ [errLog msg] } }
    else none
  | .cancel t kr =>
    match cancelJobRecord s.job t kr with
    | .ok j2 => some { s with job := j2 }
    | .error _ => none

/-- Run a list of operations from a state. -/
def run (env : Env) (s : SysState) : List Op → Option SysState
  | [] => some s
  | op :: ops => (step env s op).bind (fun s2 => run env s2 ops)

/-- The global job registry (line 61), as an association list keyed by job id. -/
abbrev Registry : Type := List (String × Job)

/-- Registry lookup (`job_id in jobs` / `jobs[job_id]`). -/
def lookupJob (reg : Registry) (jid : String) : Option Job :=
  (List.find? (fun kv => kv.1 = jid) reg).map (fun kv => kv.2)

/-- Registry update of one key. -/
def updateJob (reg : Registry) (jid : String) (j : Job) : Registry :=
  List.map (fun kv => if kv.1 = jid then (kv.1, j) else kv) reg

/-- Response of create_job (lines 93-97). -/
structure JobResponse where
  jobId : String
  status : JobStatus
  message : String
deriving DecidableEq, Repr

/-- create_job (lines 70-97): unconditionally build a Pending record keyed by a
fresh id, insert it into the registry, start the background runner thread, and
return the response.  The Bool records that the runner thread was scheduled
(thread.start() at line 91 is unconditional). -/
def createJob (reg : Registry) (jid repo issue _tok : String) (t : Nat) :
    Registry × JobResponse × Bool :=
  (reg ++ [(jid, initJob jid repo issue t)],
   { jobId := jid, status := .pending
     message := "SWE-agent job " ++ jid ++ " started" },
   true)

/-- cancel_job at registry level (lines 134-156): 404 when the id is unknown,
otherwise the record-level cancellation; any raised HTTPException leaves the
registry unchanged.  `tok` of the kill is the killRaises flag. -/
def cancelJobSys (reg : Registry) (jid : String) (t : Nat) (killRaises : Bool) :
    Registry × Except Nat String :=
  match lookupJob reg jid with
  | none => (reg, .error 404)
  | some j =>
    match cancelJobRecord j t killRaises with
    | .error c => (reg, .error c)
    | .ok j2 => (updateJob reg jid j2, .ok ("Job " ++ jid ++ " cancelled"))

/-- A message sent on the websocket, with the fields of lines 294-299 / 307-312. -/
structure WsMsg where
  jobId : String
  status : JobStatus
  logs : List String
  completedAt : Option Nat
deriving DecidableEq, Repr

/-- The last n elements of a list (Python `logs[-10:]`). -/
def lastLines (n : Nat) (l : List String) : List String :=
  l.drop (l.length - n)

/-- The initial snapshot sent at lines 294-299: full log. -/
def initialMsg (j : Job) : WsMsg :=
  { jobId := j.id, status := j.status, logs := j.logs, completedAt := j.completedAt }

/-- The periodic update sent at lines 307-312: last 10 log lines. -/
def updateMsg (j : Job) : WsMsg :=
  { jobId := j.id, status := j.status, logs := lastLines 10 j.logs
    completedAt := j.completedAt }

/-- The update loop of lines 302-316 over a job record that no longer changes
(as for a job already terminal at subscribe time): each iteration sleeps 2 time
units, sends an update, and exits the loop when the status is terminal.
Messages are paired with their send time; fuel bounds the unrolling of the
while-True loop. -/
def wsUpdates (j : Job) : Nat → Nat → List (Nat × WsMsg)
  | 0, _ => []
  | fuel + 1, t =>
    if j.status.isTerminal then [(t, updateMsg j)]
    else (t, updateMsg j) :: wsUpdates j fuel (t + 2)

/-- The full message sequence of websocket_job_status for a known job whose
record no longer changes: initial snapshot at time 0 (lines 294-299), then the
update loop. -/
def wsRun (j : Job) (fuel : Nat) : List (Nat × WsMsg) :=
  (0, initialMsg j) :: wsUpdates j fuel 2

/-- Consistency of the terminal bookkeeping fields with the status: completedAt
is set, and exactly one of result and errorMessage is set, if and only if the
status is terminal; Completed carries the result, Failed the errorMessage. -/
def terminalConsistent (j : Job) : Prop :=
  (j.status.isTerminal = true ↔ j.completedAt.isSome = true) ∧
  (j.status = .completed → j.result.isSome = true ∧ j.errorMessage = none) ∧
  (j.status = .failed → j.errorMessage.isSome = true ∧ j.result = none) ∧
  (j.status.isTerminal = false → j.result = none ∧ j.errorMessage = none ∧
    j.completedAt = none)

/-- Inductive invariant of cancellation-free executions, tying the runner phase
to the record fields. -/
def phaseInv (s : SysState) : Prop :=
  match s.phase with
  | .notStarted => s.job.status = .pending ∧ s.job.startedAt = none ∧
      s.job.completedAt = none ∧ s.job.pid = none ∧
      s.job.errorMessage = none ∧ s.job.result = none
  | .started => s.job.status = .running ∧ s.job.completedAt = none ∧
      s.job.pid = none ∧ s.job.errorMessage = none ∧ s.job.result = none
  | .resolved => s.job.status = .running ∧ s.job.completedAt = none ∧
      s.job.pid = none ∧ s.job.errorMessage = none ∧ s.job.result = none
  | .launched => s.job.status = .running ∧ s.job.completedAt = none ∧
      s.job.pid.isSome = true ∧ s.job.errorMessage = none ∧ s.job.result = none
  | .finished => s.job.completedAt.isSome = true ∧
      ((s.job.status = .completed ∧ s.job.result.isSome = true ∧
          s.job.errorMessage = none) ∨
       (s.job.status = .failed ∧ s.job.errorMessage.isSome = true ∧
          s.job.result = none))

/-- Whether an operation is a cancellation. -/
def isCancel : Op → Bool
  | .cancel _ _ => true
  | _ => false

/-- Every operation except possibly the final one is a runner operation. -/
def cancelOnlyLast : List Op → Bool
  | [] => true
  | op :: ops => if ops.isEmpty then true else !(isCancel op) && cancelOnlyLast ops

/-- A terminal status is exactly one that is neither pending nor running. -/
theorem isTerminal_iff_not_active (st : JobStatus) :
    st.isTerminal = true ↔ ¬(st = .pending ∨ st = .running) := by
  cases st <;> simp [JobStatus.isTerminal]

/-- Fields of a successful record-level cancellation. -/
theorem cancelJobRecord_ok {j : Job} {t : Nat} {kr : Bool} {j2 : Job}
    (h : cancelJobRecord j t kr = .ok j2) :
    (j.status = .pending ∨ j.status = .running) ∧
    j2.status = .failed ∧ j2.completedAt = some t ∧
    j2.errorMessage = some cancelMsg ∧ j2.result = j.result ∧ j2.pid = j.pid := by
  unfold cancelJobRecord at h
  split at h
  next hs =>
    split at h
    next =>
      split at h
      next => exact absurd h (by simp)
      next =>
        injection h with h2
        subst h2
        exact ⟨hs, rfl, rfl, rfl, rfl, rfl⟩
    next =>
      injection h with h2
      subst h2
      exact ⟨hs, rfl, rfl, rfl, rfl, rfl⟩
  next => exact absurd h (by simp)

/-- An environment in which the first candidate path exists. -/
def envW : Env :=
  { hasOpenAI := true, hasModal := true, dir := "/srv", exPaths := ["/app/SWE-agent"] }

/-- An environment in which no candidate path exists. -/
def envNoPath : Env :=
  { hasOpenAI := true, hasModal := true, dir := "/srv", exPaths := [] }

/-- A running job with a recorded pid, for concrete instantiations. -/
def jobR : Job :=
  { initJob "b" "r" "i" 0 with status := .running, startedAt := some 1, pid := some 42 }

/-- A completed job, for concrete instantiations. -/
def jobT : Job :=
  { initJob "a" "r" "i" 0 with
      status := .completed
      startedAt := some 1
      completedAt := some 2
      pid := some 41
      logs := ["l1", "l2"]
      result := some { success := true, returnCode := 0 } }

/-- A state whose runner has launched the subprocess, for concrete instantiations. -/
def stateLaunched : SysState := { job := jobR, phase := .launched }

/-- Claim C3: when the stream is exhausted at exit code c, the runner sets
completedAt; at c = 0 it sets status Completed with result success-and-exit-code
and leaves errorMessage unset; at c ≠ 0 it sets status Failed with an
errorMessage describing the exit code and leaves result unset. -/
theorem C3_exit_code (env : Env) (s : SysState) (t : Nat) (code : Int)
    (hph : s.phase = .launched) (he : s.job.errorMessage = none)
    (hr : s.job.result = none) :
    (step env s (Op.exitDone t code)).map (fun s2 => s2.job.completedAt)
      = some (some t) ∧
    (code = 0 →
      (step env s (Op.exitDone t code)).map
          (fun s2 => (s2.job.status, s2.job.result, s2.job.errorMessage))
        = some (.completed, some { success := true, returnCode := code }, none)) ∧
    (code ≠ 0 →
      (step env s (Op.exitDone t code)).map
          (fun s2 => (s2.job.status, s2.job.errorMessage, s2.job.result))
        = some (.failed, some (exitFailMsg code), none)) := by
  by_cases hc : code = 0 <;>
    simp [step, hph, hc, he, hr]

/-- Witness for C3 at a concrete launched state and both exit codes. -/
theorem C3_exit_code_witness :
    (stateLaunched.phase = .launched ∧
      stateLaunched.job.errorMessage = none ∧ stateLaunched.job.result = none) ∧
    (step envW stateLaunched (Op.exitDone 5 0)).map
        (fun s2 => (s2.job.status, s2.job.result, s2.job.errorMessage))
      = some (.completed, some { success := true, returnCode := 0 }, none) ∧
    (step envW stateLaunched (Op.exitDone 5 1)).map
        (fun s2 => (s2.job.status, s2.job.errorMessage, s2.job.result))
      = some (.failed, some (exitFailMsg 1), none) :=
  ⟨⟨rfl, rfl, rfl⟩,
   (C3_exit_code envW stateLaunched 5 0 rfl rfl rfl).2.1 rfl,
   (C3_exit_code envW stateLaunched 5 1 rfl rfl rfl).2.2 (by decide)⟩

/-- Claim C4: cancelling a Pending or Running job (with os.kill succeeding)
unconditionally sets status Failed, completedAt, and the cancelled-by-user
errorMessage, leaves result untouched, and appends the cancellation log line
exactly when a truthy processHandle is recorded. -/
theorem C4_cancel_effect (j : Job) (t : Nat)
    (h : j.status = .pending ∨ j.status = .running) :
    (cancelJobRecord j t false).map
        (fun j2 => (j2.status, j2.completedAt, j2.errorMessage, j2.result))
      = .ok (.failed, some t, some cancelMsg, j.result) ∧
    (pyTruthy j.pid = true →
      (cancelJobRecord j t false).map (fun j2 => j2.logs) = .ok (j.logs ++ [cancelLog])) ∧
    (pyTruthy j.pid = false →
      (cancelJobRecord j t false).map (fun j2 => j2.logs) = .ok j.logs) := by
  cases hp : pyTruthy j.pid <;>
    simp [cancelJobRecord, h, hp, Except.map]

/-- Witness for C4 at a running job with pid 42 and at a pending job without pid. -/
theorem C4_cancel_effect_witness :
    (jobR.status = .pending ∨ jobR.status = .running) ∧
    (cancelJobRecord jobR 7 false).map
        (fun j2 => (j2.status, j2.completedAt, j2.errorMessage, j2.result))
      = .ok (.failed, some 7, some cancelMsg, jobR.result) ∧
    (cancelJobRecord jobR 7 false).map (fun j2 => j2.logs)
      = .ok (jobR.logs ++ [cancelLog]) ∧
    (cancelJobRecord (initJob "c" "r" "i" 0) 7 false).map (fun j2 => j2.logs)
      = .ok (initJob "c" "r" "i" 0).logs :=
  ⟨Or.inr rfl,
   (C4_cancel_effect jobR 7 (Or.inr rfl)).1,
   (C4_cancel_effect jobR 7 (Or.inr rfl)).2.1 rfl,
   (C4_cancel_effect (initJob "c" "r" "i" 0) 7 (Or.inl rfl)).2.2 rfl⟩

/-- Claim C5: cancel is rejected with 404 on an unknown job id and with 400 on a
terminal job, and in both cases the registry (hence the targeted record) is
returned unchanged. -/
theorem C5_cancel_rejections (reg : Registry) (jid : String) (t : Nat) (kr : Bool) :
    (lookupJob reg jid = none → cancelJobSys reg jid t kr = (reg, .error 404)) ∧
    (∀ j, lookupJob reg jid = some j → j.status.isTerminal = true →
      cancelJobSys reg jid t kr = (reg, .error 400)) := by
  constructor
  · intro h
    simp [cancelJobSys, h]
  · intro j h hterm
    have hna : ¬(j.status = .pending ∨ j.status = .running) :=
      (isTerminal_iff_not_active j.status).mp hterm
    simp [cancelJobSys, h, cancelJobRecord, hna]

/-- Witness for C5: 404 on the empty registry, 400 on a completed job. -/
theorem C5_cancel_rejections_witness :
    (lookupJob [] "x" = none ∧ cancelJobSys [] "x" 1 false = ([], .error 404)) ∧
    (lookupJob [("a", jobT)] "a" = some jobT ∧ jobT.status.isTerminal = true ∧
      cancelJobSys [("a", jobT)] "a" 1 false = ([("a", jobT)], .error 400)) :=
  ⟨⟨rfl, (C5_cancel_rejections [] "x" 1 false).1 rfl⟩,
   ⟨by decide, rfl, (C5_cancel_rejections [("a", jobT)] "a" 1 false).2 jobT (by decide) rfl⟩⟩

/-- Claim C9: when the job is non-terminal, a truthy pid is recorded and os.kill
raises, cancel reports a 500 error and the registry (hence the job record) is
returned unchanged: no log line, no status change, no completedAt, no
errorMessage. -/
theorem C9_cancel_kill_error (reg : Registry) (jid : String) (j : Job) (t : Nat)
    (h : lookupJob reg jid = some j)
    (hs : j.status = .pending ∨ j.status = .running)
    (hp : pyTruthy j.pid = true) :
    cancelJobSys reg jid t true = (reg, .error 500) := by
  simp [cancelJobSys, h, cancelJobRecord, hs, hp]

/-- Witness for C9 at a running job with pid 42. -/
theorem C9_cancel_kill_error_witness :
    (lookupJob [("b", jobR)] "b" = some jobR ∧
      (jobR.status = .pending ∨ jobR.status = .running) ∧ pyTruthy jobR.pid = true) ∧
    cancelJobSys [("b", jobR)] "b" 3 true = ([("b", jobR)], .error 500) :=
  ⟨⟨by decide, Or.inr rfl, rfl⟩,
   C9_cancel_kill_error [("b", jobR)] "b" jobR 3 (by decide) (Or.inr rfl) rfl⟩

/-- Claim C10: a subscription to a known job delivers at least two messages;
when the job is already terminal at subscribe time the publisher sends the
initial full-log snapshot at time 0, waits one 2-unit interval, sends exactly
one incremental update carrying the terminal status and the last 10 log lines,
and only then closes. -/
theorem C10_ws_terminal (j : Job) (fuel : Nat) (hf : 1 ≤ fuel) :
    2 ≤ (wsRun j fuel).length ∧
    (j.status.isTerminal = true →
      wsRun j fuel = [(0, initialMsg j), (2, updateMsg j)] ∧
      (updateMsg j).status = j.status ∧
      (updateMsg j).logs = lastLines 10 j.logs ∧
      (initialMsg j).logs = j.logs) := by
  obtain ⟨f, rfl⟩ : ∃ f, fuel = f + 1 := ⟨fuel - 1, by omega⟩
  constructor
  · by_cases ht : j.status.isTerminal = true <;>
      simp [wsRun, wsUpdates, ht]
  · intro ht
    simp [wsRun, wsUpdates, ht, updateMsg, initialMsg]

/-- Witness for C10 at a concrete completed job. -/
theorem C10_ws_terminal_witness :
    (1 ≤ 3 ∧ jobT.status.isTerminal = true) ∧
    2 ≤ (wsRun jobT 3).length ∧
    wsRun jobT 3 = [(0, initialMsg jobT), (2, updateMsg jobT)] :=
  ⟨⟨by decide, rfl⟩, (C10_ws_terminal jobT 3 (by decide)).1,
   ((C10_ws_terminal jobT 3 (by decide)).2 rfl).1⟩

/-- Claim C8 counterexample: a request whose repoLocator and issueLocator are
both empty is not rejected: create_job still inserts a Pending record into the
registry and schedules the background runner. -/
theorem C8_counterexample :
    (createJob [] "job-1" "" "" "tok" 0).1 = [("job-1", initJob "job-1" "" "" 0)] ∧
    (createJob [] "job-1" "" "" "tok" 0).2.1.status = .pending ∧
    (createJob [] "job-1" "" "" "tok" 0).2.2 = true :=
  ⟨rfl, rfl, rfl⟩

/-- Claim C8 amended: create_job performs no synchronous validation of the
locators; for every request, even one with empty repoLocator or issueLocator,
it inserts a Pending record keyed by the fresh id and schedules the background
runner. -/
theorem C8_amended (reg : Registry) (jid repo issue tok : String) (t : Nat) :
    (createJob reg jid repo issue tok t).1 = reg ++ [(jid, initJob jid repo issue t)] ∧
    (createJob reg jid repo issue tok t).2.1.status = .pending ∧
    (createJob reg jid repo issue tok t).2.2 = true :=
  ⟨rfl, rfl, rfl⟩

/-- The initial state satisfies the phase invariant. -/
theorem phaseInv_init (jid repo issue : String) (t : Nat) :
    phaseInv (initState jid repo issue t) := by
  simp [phaseInv, initState, initJob]

/-- The phase invariant yields consistency of the terminal bookkeeping fields. -/
theorem tc_of_phaseInv {s : SysState} (hinv : phaseInv s) :
    terminalConsistent s.job := by
  obtain ⟨j, ph⟩ := s
  cases ph <;> simp only [phaseInv] at hinv
  case notStarted =>
    obtain ⟨h1, _, h3, _, h5, h6⟩ := hinv
    simp [terminalConsistent, h1, h3, h5, h6, JobStatus.isTerminal]
  case started =>
    obtain ⟨h1, h2, _, h4, h5⟩ := hinv
    simp [terminalConsistent, h1, h2, h4, h5, JobStatus.isTerminal]
  case resolved =>
    obtain ⟨h1, h2, _, h4, h5⟩ := hinv
    simp [terminalConsistent, h1, h2, h4, h5, JobStatus.isTerminal]
  case launched =>
    obtain ⟨h1, h2, _, h4, h5⟩ := hinv
    simp [terminalConsistent, h1, h2, h4, h5, JobStatus.isTerminal]
  case finished =>
    obtain ⟨h1, h2⟩ := hinv
    rcases h2 with ⟨h2, h3, h4⟩ | ⟨h2, h3, h4⟩ <;>
      simp [terminalConsistent, h1, h2, h3, h4, JobStatus.isTerminal]

/-- Every runner operation preserves the phase invariant. -/
theorem phaseInv_step {env : Env} {s s2 : SysState} {op : Op}
    (hnc : isCancel op = false) (hinv : phaseInv s)
    (hstep : step env s op = some s2) : phaseInv s2 := by
  obtain ⟨j, ph⟩ := s
  cases op with
  | runnerStart t =>
    cases ph <;> simp only [step, reduceCtorEq, if_true, if_false, reduceIte] at hstep
    case notStarted =>
      obtain ⟨_, _, h3, h4, h5, h6⟩ := hinv
      rw [Option.some.injEq] at hstep
      subst hstep
      exact ⟨rfl, h3, h4, h5, h6⟩
  | resolve t =>
    cases hfp : findPath env with
    | some p =>
      cases ph <;> simp only [step, hfp, reduceCtorEq, reduceIte] at hstep
      case started =>
        obtain ⟨h1, h2, h3, h4, h5⟩ := hinv
        rw [Option.some.injEq] at hstep
        subst hstep
        exact ⟨h1, h2, h3, h4, h5⟩
    | none =>
      cases ph <;> simp only [step, hfp, reduceCtorEq, reduceIte] at hstep
      case started =>
        obtain ⟨h1, h2, h3, h4, h5⟩ := hinv
        rw [Option.some.injEq] at hstep
        subst hstep
        exact ⟨rfl, Or.inr ⟨rfl, rfl, h5⟩⟩
  | launch p =>
    cases ph <;> simp only [step, reduceCtorEq, reduceIte] at hstep
    case resolved =>
      obtain ⟨h1, h2, h3, h4, h5⟩ := hinv
      rw [Option.some.injEq] at hstep
      subst hstep
      exact ⟨h1, h2, rfl, h4, h5⟩
  | streamLine line =>
    cases ph <;> simp only [step, reduceCtorEq, reduceIte] at hstep
    case launched =>
      obtain ⟨h1, h2, h3, h4, h5⟩ := hinv
      by_cases hl : pyStrip line = ""
      · rw [if_pos hl, Option.some.injEq] at hstep
        subst hstep
        exact ⟨h1, h2, h3, h4, h5⟩
      · rw [if_neg hl, Option.some.injEq] at hstep
        subst hstep
        exact ⟨h1, h2, h3, h4, h5⟩
  | exitDone t code =>
    cases ph <;> simp only [step, reduceCtorEq, reduceIte] at hstep
    case launched =>
      obtain ⟨h1, h2, h3, h4, h5⟩ := hinv
      by_cases hc : code = 0
      · rw [if_pos hc, Option.some.injEq] at hstep
        subst hstep
        exact ⟨rfl, Or.inl ⟨rfl, rfl, h4⟩⟩
      · rw [if_neg hc, Option.some.injEq] at hstep
        subst hstep
        exact ⟨rfl, Or.inr ⟨rfl, rfl, h5⟩⟩
  | ioFail t msg =>
    cases ph <;> simp only [step, reduceCtorEq, reduceIte,
      or_self, or_true, true_or, or_false, false_or] at hstep
    case started =>
      obtain ⟨_, _, _, _, h5⟩ := hinv
      rw [Option.some.injEq] at hstep
      subst hstep
      exact ⟨rfl, Or.inr ⟨rfl, rfl, h5⟩⟩
    case resolved =>
      obtain ⟨_, _, _, _, h5⟩ := hinv
      rw [Option.some.injEq] at hstep
      subst hstep
      exact ⟨rfl, Or.inr ⟨rfl, rfl, h5⟩⟩
    case launched =>
      obtain ⟨_, _, _, _, h5⟩ := hinv
      rw [Option.some.injEq] at hstep
      subst hstep
      exact ⟨rfl, Or.inr ⟨rfl, rfl, h5⟩⟩
  | cancel t kr =>
    simp [isCancel] at hnc

/-- A cancellation fired from a state satisfying the phase invariant leaves a
record with consistent terminal bookkeeping fields. -/
theorem cancel_step_tc {env : Env} {s s2 : SysState} {t : Nat} {kr : Bool}
    (hinv : phaseInv s) (hstep : step env s (Op.cancel t kr) = some s2) :
    terminalConsistent s2.job := by
  simp only [step] at hstep
  cases hcr : cancelJobRecord s.job t kr with
  | error c => rw [hcr] at hstep; exact Option.noConfusion hstep
  | ok j2 =>
    rw [hcr] at hstep
    rw [Option.some.injEq] at hstep
    subst hstep
    obtain ⟨hact, h2, h3, h4, h5, _⟩ := cancelJobRecord_ok hcr
    have hres : s.job.result = none := by
      obtain ⟨j, ph⟩ := s
      cases ph <;> simp only [phaseInv] at hinv
      case notStarted => exact hinv.2.2.2.2.2
      case started => exact hinv.2.2.2.2
      case resolved => exact hinv.2.2.2.2
      case launched => exact hinv.2.2.2.2
      case finished =>
        rcases hinv.2 with ⟨hc, _, _⟩ | ⟨hc, _, _⟩ <;>
          rcases hact with ha | ha <;> rw [hc] at ha <;> exact absurd ha (by simp)
    rw [hres] at h5
    simp [terminalConsistent, h2, h3, h4, h5, JobStatus.isTerminal]

/-- Runs whose operations are runner operations except possibly a final
cancellation end in a record with consistent terminal bookkeeping fields. -/
theorem tc_run {env : Env} : ∀ (ops : List Op) (s s2 : SysState),
    cancelOnlyLast ops = true → phaseInv s →
    run env s ops = some s2 → terminalConsistent s2.job := by
  intro ops
  induction ops with
  | nil =>
    intro s s2 _ hinv hrun
    simp only [run, Option.some.injEq] at hrun
    subst hrun
    exact tc_of_phaseInv hinv
  | cons op ops ih =>
    intro s s2 hgood hinv hrun
    simp only [run] at hrun
    cases hstep : step env s op with
    | none => rw [hstep] at hrun; exact Option.noConfusion hrun
    | some s1 =>
      rw [hstep] at hrun
      simp only [Option.some_bind] at hrun
      cases ops with
      | nil =>
        simp only [run, Option.some.injEq] at hrun
        subst hrun
        cases op with
        | cancel t kr => exact cancel_step_tc hinv hstep
        | runnerStart t => exact tc_of_phaseInv (phaseInv_step (by rfl) hinv hstep)
        | resolve t => exact tc_of_phaseInv (phaseInv_step (by rfl) hinv hstep)
        | launch p => exact tc_of_phaseInv (phaseInv_step (by rfl) hinv hstep)
        | streamLine line => exact tc_of_phaseInv (phaseInv_step (by rfl) hinv hstep)
        | exitDone t code => exact tc_of_phaseInv (phaseInv_step (by rfl) hinv hstep)
        | ioFail t msg => exact tc_of_phaseInv (phaseInv_step (by rfl) hinv hstep)
      | cons op2 ops2 =>
        simp only [cancelOnlyLast, List.isEmpty_cons, Bool.false_eq_true, if_false,
          Bool.and_eq_true, Bool.not_eq_true'] at hgood
        exact ih s1 s2 hgood.2 (phaseInv_step hgood.1 hinv hstep) hrun

/-- Operation sequence of the cancellation race: cancel fires while the job is
still Pending (no pid recorded yet), then the runner thread starts, launches,
and the process exits with code 0. -/
def c2cexTrace : List Op :=
  [Op.cancel 1 false, Op.runnerStart 2, Op.resolve 2, Op.launch 7, Op.exitDone 3 0]

/-- Claim C2 counterexample: after cancelling a Pending job and letting the
runner proceed to a successful exit, the job is Completed while errorMessage is
still the cancellation message and result is also set — both result and
errorMessage are set, and a Completed job carries a non-empty errorMessage. -/
theorem C2_counterexample :
    (run envW (initState "j" "r" "i" 0) c2cexTrace).map
        (fun s => (s.job.status, s.job.errorMessage, s.job.result.isSome,
          s.job.completedAt))
      = some (.completed, some cancelMsg, true, some 3) := by decide

/-- Operation sequence of a normal successful run with no cancellation. -/
def c2wTrace : List Op :=
  [Op.runnerStart 1, Op.resolve 1, Op.launch 42, Op.exitDone 2 0]

/-- The state reached by c2wTrace from a fresh job in envW. -/
def c2wState : SysState :=
  { job := { id := "j"
             repoUrl := "r"
             issueUrl := "i"
             status := .completed
             createdAt := 0
             startedAt := some 1
             completedAt := some 2
             pid := some 42
             errorMessage := none
             logs := [startLog, openaiLog true, modalLog true,
                      pathLog "/app/SWE-agent", cmdLog "r" "i", pidLog 42, successLog]
             result := some { success := true, returnCode := 0 } }
    phase := .finished }

/-- Claim C2 amended: in every state reachable by a sequence of operations in
which a cancellation, if present, is the final operation (i.e. excluding the
documented race where the runner keeps writing after a cancel), completedAt and
exactly one of result/errorMessage are set if and only if the status is
terminal; in particular result and errorMessage are never both set and a
Completed job has no errorMessage. -/
theorem C2_amended (env : Env) (jid repo issue : String) (t : Nat)
    (ops : List Op) (s : SysState)
    (hgood : cancelOnlyLast ops = true)
    (hrun : run env (initState jid repo issue t) ops = some s) :
    terminalConsistent s.job :=
  tc_run ops (initState jid repo issue t) s hgood (phaseInv_init jid repo issue t) hrun

/-- Witness for C2 at a concrete cancellation-free run ending Completed. -/
theorem C2_amended_witness :
    (cancelOnlyLast c2wTrace = true ∧
      run envW (initState "j" "r" "i" 0) c2wTrace = some c2wState) ∧
    terminalConsistent c2wState.job :=
  ⟨⟨by decide, by decide⟩,
   C2_amended envW "j" "r" "i" 0 c2wTrace c2wState (by decide) (by decide)⟩

/-- Operation sequence filling the log to exactly 100 lines: runner start and
setup produce 6 lines, then 94 stream lines. -/
def c1PreTrace : List Op :=
  [Op.runnerStart 1, Op.resolve 1, Op.launch 42] ++
    List.replicate 94 (Op.streamLine "x")

/-- The same sequence followed by the terminal transition at exit code 0. -/
def c1Trace : List Op := c1PreTrace ++ [Op.exitDone 2 0]

/-- Claim C1 counterexample: once the log has reached the 100-line cap, the
terminal success append of line 258 is not trimmed, so a subsequent read
observes 101 log lines. -/
theorem C1_counterexample :
    (run envW (initState "j" "r" "i" 0) c1PreTrace).map
        (fun s => s.job.logs.length) = some 100 ∧
    (run envW (initState "j" "r" "i" 0) c1Trace).map
        (fun s => s.job.logs.length) = some 101 := by
  constructor <;> decide

/-- Claim C1 amended: only the stream-loop append of lines 245-247 enforces the
cap — it keeps the log at 100 entries or fewer whenever it was at 100 or fewer;
the status, warning, terminal and cancellation appends do not trim, e.g. the
terminal transition always grows the log by one line. -/
theorem C1_amended :
    (∀ (logs : List String) (entry : String), logs.length ≤ 100 →
      (appendCapped logs entry).length ≤ 100) ∧
    (∀ (env : Env) (s : SysState) (t : Nat), s.phase = .launched →
      (step env s (Op.exitDone t 0)).map (fun s2 => s2.job.logs.length)
        = some (s.job.logs.length + 1)) := by
  constructor
  · intro logs entry h
    have hlen : (logs ++ [entry]).length = logs.length + 1 := by simp
    simp only [appendCapped]
    split
    next hlt =>
      rw [List.length_drop, hlen]
      omega
    next hle =>
      rw [hlen]
      omega
  · intro env s t hph
    simp [step, hph]

/-- Witness for C1 amended: a capped stream append at a full log, and the
uncapped terminal append at a concrete launched state. -/
theorem C1_amended_witness :
    ((List.replicate 100 "l").length ≤ 100 ∧
      (appendCapped (List.replicate 100 "l") "x").length ≤ 100) ∧
    (stateLaunched.phase = .launched ∧
      (step envW stateLaunched (Op.exitDone 9 0)).map (fun s2 => s2.job.logs.length)
        = some (stateLaunched.job.logs.length + 1)) :=
  ⟨⟨by decide, C1_amended.1 (List.replicate 100 "l") "x" (by decide)⟩,
   ⟨rfl, C1_amended.2 envW stateLaunched 9 rfl⟩⟩

/-- Claim C6 counterexample: with no candidate path existing, the job is marked
Running (with startedAt set) before the probe, and only then transitions to
Failed — it does not go directly from Pending to Failed. -/
theorem C6_counterexample :
    (run envNoPath (initState "j" "r" "i" 0) [Op.runnerStart 1]).map
        (fun s => (s.job.status, s.job.startedAt)) = some (.running, some 1) ∧
    (run envNoPath (initState "j" "r" "i" 0) [Op.runnerStart 1, Op.resolve 2]).map
        (fun s => (s.job.status, s.job.errorMessage))
      = some (.failed, some (notFoundMsg envNoPath)) := by
  constructor <;> decide

/-- Claim C6 amended: the probe takes the first existing path of the fixed
ordered candidate list, and when none exists the job transitions to Failed with
an errorMessage naming the attempted paths — but only after having been marked
Running with startedAt set, not directly from Pending. -/
theorem C6_amended (env : Env) (jid repo issue : String) (t0 t1 t2 : Nat) :
    (findPath env =
      (if env.exPaths.contains "/app/SWE-agent" then some "/app/SWE-agent"
       else if env.exPaths.contains "SWE-agent" then some "SWE-agent"
       else if env.exPaths.contains "backend/SWE-agent" then some "backend/SWE-agent"
       else if env.exPaths.contains (env.dir ++ "/SWE-agent") then
         some (env.dir ++ "/SWE-agent")
       else none)) ∧
    (findPath env = none →
      (run env (initState jid repo issue t0) [Op.runnerStart t1]).map
          (fun s => (s.job.status, s.job.startedAt)) = some (.running, some t1) ∧
      (run env (initState jid repo issue t0) [Op.runnerStart t1, Op.resolve t2]).map
          (fun s => (s.job.status, s.job.startedAt, s.job.completedAt,
            s.job.errorMessage))
        = some (.failed, some t1, some t2, some (notFoundMsg env))) := by
  constructor
  · simp only [findPath, possiblePaths]
    cases h1 : env.exPaths.contains "/app/SWE-agent" <;>
    cases h2 : env.exPaths.contains "SWE-agent" <;>
    cases h3 : env.exPaths.contains "backend/SWE-agent" <;>
    cases h4 : env.exPaths.contains (env.dir ++ "/SWE-agent") <;>
      simp only [List.find?, h1, h2, h3, h4, Bool.false_eq_true, if_false, if_true]
  · intro hnone
    constructor
    · simp [run, step, initState, initJob]
    · simp [run, step, initState, initJob, hnone]

/-- Witness for C6 amended in the environment with no existing path. -/
theorem C6_amended_witness :
    findPath envNoPath = none ∧
    (run envNoPath (initState "w" "r" "i" 0) [Op.runnerStart 3]).map
        (fun s => (s.job.status, s.job.startedAt)) = some (.running, some 3) ∧
    (run envNoPath (initState "w" "r" "i" 0) [Op.runnerStart 3, Op.resolve 4]).map
        (fun s => (s.job.status, s.job.startedAt, s.job.completedAt,
          s.job.errorMessage))
      = some (.failed, some 3, some 4, some (notFoundMsg envNoPath)) :=
  ⟨by decide,
   ((C6_amended envNoPath "w" "r" "i" 0 3 4).2 (by decide)).1,
   ((C6_amended envNoPath "w" "r" "i" 0 3 4).2 (by decide)).2⟩

/-- Pid bookkeeping tied to the runner phase: no pid before launch, a pid once
launched. -/
def pidInv (s : SysState) : Prop :=
  ((s.phase = .notStarted ∨ s.phase = .started ∨ s.phase = .resolved) →
    s.job.pid = none) ∧
  (s.phase = .launched → s.job.pid.isSome = true)

/-- Every operation preserves the pid bookkeeping. -/
theorem pidInv_step {env : Env} {s s2 : SysState} {op : Op}
    (hinv : pidInv s) (hstep : step env s op = some s2) : pidInv s2 := by
  obtain ⟨j, ph⟩ := s
  cases op with
  | runnerStart t =>
    cases ph <;> simp only [step, reduceCtorEq, reduceIte] at hstep
    case notStarted =>
      rw [Option.some.injEq] at hstep
      subst hstep
      exact ⟨(fun _ => hinv.1 (Or.inl rfl)), (fun h => nomatch h)⟩
  | resolve t =>
    cases hfp : findPath env with
    | some p =>
      cases ph <;> simp only [step, hfp, reduceCtorEq, reduceIte] at hstep
      case started =>
        rw [Option.some.injEq] at hstep
        subst hstep
        exact ⟨(fun _ => hinv.1 (Or.inr (Or.inl rfl))), (fun h => nomatch h)⟩
    | none =>
      cases ph <;> simp only [step, hfp, reduceCtorEq, reduceIte] at hstep
      case started =>
        rw [Option.some.injEq] at hstep
        subst hstep
        exact ⟨(fun h => nomatch h), (fun h => nomatch h)⟩
  | launch p =>
    cases ph <;> simp only [step, reduceCtorEq, reduceIte] at hstep
    case resolved =>
      rw [Option.some.injEq] at hstep
      subst hstep
      exact ⟨(fun h => nomatch h), (fun _ => rfl)⟩
  | streamLine line =>
    cases ph <;> simp only [step, reduceCtorEq, reduceIte] at hstep
    case launched =>
      by_cases hl : pyStrip line = ""
      · rw [if_pos hl, Option.some.injEq] at hstep
        subst hstep
        exact hinv
      · rw [if_neg hl, Option.some.injEq] at hstep
        subst hstep
        exact ⟨(fun h => nomatch h), (fun _ => hinv.2 rfl)⟩
  | exitDone t code =>
    cases ph <;> simp only [step, reduceCtorEq, reduceIte] at hstep
    case launched =>
      by_cases hc : code = 0
      · rw [if_pos hc, Option.some.injEq] at hstep
        subst hstep
        exact ⟨(fun h => nomatch h), (fun h => nomatch h)⟩
      · rw [if_neg hc, Option.some.injEq] at hstep
        subst hstep
        exact ⟨(fun h => nomatch h), (fun h => nomatch h)⟩
  | ioFail t msg =>
    cases ph <;> simp only [step, reduceCtorEq, reduceIte,
      or_self, or_true, true_or, or_false, false_or] at hstep
    case started =>
      rw [Option.some.injEq] at hstep
      subst hstep
      exact ⟨(fun h => nomatch h), (fun h => nomatch h)⟩
    case resolved =>
      rw [Option.some.injEq] at hstep
      subst hstep
      exact ⟨(fun h => nomatch h), (fun h => nomatch h)⟩
    case launched =>
      rw [Option.some.injEq] at hstep
      subst hstep
      exact ⟨(fun h => nomatch h), (fun h => nomatch h)⟩
  | cancel t kr =>
    simp only [step] at hstep
    cases hcr : cancelJobRecord j t kr with
    | error c => rw [hcr] at hstep; exact Option.noConfusion hstep
    | ok j2 =>
      rw [hcr, Option.some.injEq] at hstep
      subst hstep
      have hpid : j2.pid = j.pid := (cancelJobRecord_ok hcr).2.2.2.2.2
      constructor
      · intro h
        rw [hpid]
        exact hinv.1 h
      · intro h
        rw [hpid]
        exact hinv.2 h

/-- Runs preserve the pid bookkeeping. -/
theorem pidInv_run {env : Env} : ∀ (ops : List Op) (s s2 : SysState),
    pidInv s → run env s ops = some s2 → pidInv s2 := by
  intro ops
  induction ops with
  | nil =>
    intro s s2 hinv hrun
    simp only [run, Option.some.injEq] at hrun
    subst hrun
    exact hinv
  | cons op ops ih =>
    intro s s2 hinv hrun
    simp only [run] at hrun
    cases hstep : step env s op with
    | none => rw [hstep] at hrun; exact Option.noConfusion hrun
    | some s1 =>
      rw [hstep] at hrun
      simp only [Option.some_bind] at hrun
      exact ih s1 s2 (pidInv_step hinv hstep) hrun

/-- Once a pid is recorded, no operation removes it. -/
theorem step_pid_mono {env : Env} {s s2 : SysState} {op : Op}
    (hstep : step env s op = some s2) (hsome : s.job.pid.isSome = true) :
    s2.job.pid.isSome = true := by
  obtain ⟨j, ph⟩ := s
  cases op with
  | runnerStart t =>
    cases ph <;> simp only [step, reduceCtorEq, reduceIte] at hstep
    case notStarted =>
      rw [Option.some.injEq] at hstep
      subst hstep
      exact hsome
  | resolve t =>
    cases hfp : findPath env with
    | some p =>
      cases ph <;> simp only [step, hfp, reduceCtorEq, reduceIte] at hstep
      case started =>
        rw [Option.some.injEq] at hstep
        subst hstep
        exact hsome
    | none =>
      cases ph <;> simp only [step, hfp, reduceCtorEq, reduceIte] at hstep
      case started =>
        rw [Option.some.injEq] at hstep
        subst hstep
        exact hsome
  | launch p =>
    cases ph <;> simp only [step, reduceCtorEq, reduceIte] at hstep
    case resolved =>
      rw [Option.some.injEq] at hstep
      subst hstep
      rfl
  | streamLine line =>
    cases ph <;> simp only [step, reduceCtorEq, reduceIte] at hstep
    case launched =>
      by_cases hl : pyStrip line = ""
      · rw [if_pos hl, Option.some.injEq] at hstep
        subst hstep
        exact hsome
      · rw [if_neg hl, Option.some.injEq] at hstep
        subst hstep
        exact hsome
  | exitDone t code =>
    cases ph <;> simp only [step, reduceCtorEq, reduceIte] at hstep
    case launched =>
      by_cases hc : code = 0
      · rw [if_pos hc, Option.some.injEq] at hstep
        subst hstep
        exact hsome
      · rw [if_neg hc, Option.some.injEq] at hstep
        subst hstep
        exact hsome
  | ioFail t msg =>
    cases ph <;> simp only [step, reduceCtorEq, reduceIte,
      or_self, or_true, true_or, or_false, false_or] at hstep
    case started =>
      rw [Option.some.injEq] at hstep
      subst hstep
      exact hsome
    case resolved =>
      rw [Option.some.injEq] at hstep
      subst hstep
      exact hsome
    case launched =>
      rw [Option.some.injEq] at hstep
      subst hstep
      exact hsome
  | cancel t kr =>
    simp only [step] at hstep
    cases hcr : cancelJobRecord j t kr with
    | error c => rw [hcr] at hstep; exact Option.noConfusion hstep
    | ok j2 =>
      rw [hcr, Option.some.injEq] at hstep
      subst hstep
      have hpid : j2.pid = j.pid := (cancelJobRecord_ok hcr).2.2.2.2.2
      simp only [hpid]
      exact hsome

/-- Operation sequence of a successful run used against claim C7. -/
def c7Trace : List Op :=
  [Op.runnerStart 1, Op.resolve 1, Op.launch 43, Op.exitDone 2 0]

/-- Claim C7 counterexample: after the process has exited and the job is in a
terminal status, the recorded pid is still present — it is never cleared (and
list_jobs exposes it, line 128). -/
theorem C7_counterexample :
    (run envW (initState "j" "r" "i" 0) c7Trace).map
        (fun s => (s.job.status.isTerminal, s.job.pid)) = some (true, some 43) := by
  decide

/-- The state reached from a launched state by one stream line, for the C7
witness. -/
def c7StreamState : SysState :=
  { stateLaunched with job := { stateLaunched.job with
      logs := appendCapped stateLaunched.job.logs ("🤖 " ++ pyStrip "y") } }

/-- Claim C7 amended: the processHandle is absent before the subprocess is
launched and present once the runner is in its streaming loop, but it is never
cleared afterwards — every operation preserves a recorded pid, including the
terminal transitions, so terminal jobs keep their pid. -/
theorem C7_amended (env : Env) (jid repo issue : String) (t : Nat) :
    (∀ (ops : List Op) (s : SysState),
      run env (initState jid repo issue t) ops = some s →
      ((s.phase = .notStarted ∨ s.phase = .started ∨ s.phase = .resolved) →
        s.job.pid = none) ∧
      (s.phase = .launched → s.job.pid.isSome = true)) ∧
    (∀ (s s2 : SysState) (op : Op), step env s op = some s2 →
      s.job.pid.isSome = true → s2.job.pid.isSome = true) := by
  constructor
  · intro ops s hrun
    have hinit : pidInv (initState jid repo issue t) := by
      exact ⟨(fun _ => rfl), (fun h => nomatch h)⟩
    exact pidInv_run ops (initState jid repo issue t) s hinit hrun
  · intro s s2 op hstep hsome
    exact step_pid_mono hstep hsome

/-- Witness for C7 amended: the fresh job has no pid, and a stream step from a
launched state keeps the pid present. -/
theorem C7_amended_witness :
    (run envW (initState "j7" "r" "i" 0) [] = some (initState "j7" "r" "i" 0) ∧
      (initState "j7" "r" "i" 0).job.pid = none) ∧
    (step envW stateLaunched (Op.streamLine "y") = some c7StreamState ∧
      stateLaunched.job.pid.isSome = true ∧
      c7StreamState.job.pid.isSome = true) :=
  ⟨⟨rfl, ((C7_amended envW "j7" "r" "i" 0).1 [] (initState "j7" "r" "i" 0) rfl).1
      (Or.inl rfl)⟩,
   ⟨by decide, rfl,
    (C7_amended envW "j7" "r" "i" 0).2 stateLaunched c7StreamState
      (Op.streamLine "y") (by decide) rfl⟩⟩
